import Mathlib

/-!
Verification development for two GDAL driver translation units:
`mitab_imapinfofile.cpp` (MapInfo TAB/MIF feature and field mapping) and
`ogrnasdatasource.cpp` (NAS schema translation and relation extraction).

The C++ code is shallowly embedded: machine `int` values become `Int`,
out-parameters become returned tuples, fallible calls return `Option`,
virtual methods implemented outside these two files (the low-level
`CreateFeature(TABFeature*)` persistence call, `AddFieldNative`,
`OGRSpatialReference::SetFromUserInput`) become explicit function
parameters, and heap mutation of the relation layer becomes explicit
state passing.
-/

set_option autoImplicit false

namespace GDAL

/-! ## Common OGR vocabulary -/

/-- The OGR field-type enumeration (`OGRFieldType` in `ogr_core.h`),
restricted to the constructors that exist in this source revision. -/
inductive OGRFieldType where
  | OFTInteger
  | OFTIntegerList
  | OFTReal
  | OFTRealList
  | OFTString
  | OFTStringList
  | OFTWideString
  | OFTWideStringList
  | OFTBinary
  | OFTDate
  | OFTTime
  | OFTDateTime
  | OFTInteger64
  | OFTInteger64List
  deriving DecidableEq, Repr

/-- The MITAB native field-type enumeration (`TABFieldType` in `mitab.h`),
restricted to the constructors this file mentions. -/
inductive TABFieldType where
  | TABFUnknown
  | TABFChar
  | TABFInteger
  | TABFDecimal
  | TABFFloat
  | TABFDate
  | TABFTime
  | TABFDateTime
  | TABFLogical
  deriving DecidableEq, Repr

/-- A generic OGR field definition (`OGRFieldDefn`): name, semantic type,
width and precision, as read by `GetNameRef`, `GetType`, `GetWidth` and
`GetPrecision`. -/
structure OGRFieldDefn where
  pszName : String
  eType : OGRFieldType
  nWidth : Int
  nPrecision : Int
  deriving DecidableEq, Repr

/-- The OGR error result (`OGRErr`); only success (`OGRERR_NONE`, 0) and
failure (`OGRERR_FAILURE`, 6) appear in the embedded code paths. -/
inductive OGRErr where
  | OGRERR_NONE
  | OGRERR_FAILURE
  deriving DecidableEq, Repr

/-! ## `IMapInfoFile::GetTABType` and `CreateField` -/

/-- `IMapInfoFile::GetTABType` (mitab_imapinfofile.cpp:393-477).
Maps a generic field definition to a native `(type, width, precision)`
triple; `none` models the `-1` return for unsupported field types, on
which the three out-parameters are not written (see `getTABTypeOut`).
The local `nWidth`/`nPrecision` adjustments follow the source branch by
branch, including the MapInfo Decimal clamp guarded by
`nWidth > 20 || nWidth - nPrecision < 2 || nPrecision > 16`. -/
def getTABType (poField : OGRFieldDefn) : Option (TABFieldType × Int × Int) :=
  let nWidth := poField.nWidth
  let nPrecision := poField.nPrecision
  match poField.eType with
  | .OFTInteger =>
      some (.TABFInteger, if nWidth = 0 then 12 else nWidth, nPrecision)
  | .OFTReal =>
      if nWidth = 0 ∧ poField.nPrecision = 0 then
        some (.TABFFloat, 32, nPrecision)
      else
        if nWidth > 20 ∨ nWidth - nPrecision < 2 ∨ nPrecision > 16 then
          let w1 := if nWidth > 20 then (20 : Int) else nWidth
          let p1 := if w1 - nPrecision < 2 then w1 - 2 else nPrecision
          let p2 := if p1 > 16 then (16 : Int) else p1
          some (.TABFDecimal, w1, p2)
        else
          some (.TABFDecimal, nWidth, nPrecision)
  | .OFTDate =>
      some (.TABFDate, if nWidth = 0 then 10 else nWidth, nPrecision)
  | .OFTTime =>
      some (.TABFTime, if nWidth = 0 then 9 else nWidth, nPrecision)
  | .OFTDateTime =>
      some (.TABFDateTime, if nWidth = 0 then 19 else nWidth, nPrecision)
  | .OFTString =>
      some (.TABFChar, if nWidth = 0 then 254 else min 254 nWidth, nPrecision)
  | _ => none

/-- The set of generic field types the `GetTABType` if-chain handles;
every other type falls into the final `else` that raises
`CPLE_AppDefined` and returns `-1`. -/
def isTABSupportedType (t : OGRFieldType) : Bool :=
  match t with
  | .OFTInteger | .OFTReal | .OFTDate | .OFTTime | .OFTDateTime | .OFTString => true
  | _ => false

/-- `GetTABType` with its out-parameter discipline made explicit: the
caller's variables `peTABType`/`pnWidth`/`pnPrecision` are written only
on the `0` (success) return; on the `-1` return they keep their prior
values. -/
def getTABTypeOut (poField : OGRFieldDefn) (peTABType : TABFieldType)
    (pnWidth pnPrecision : Int) : Int × TABFieldType × Int × Int :=
  match getTABType poField with
  | some (t, w, p) => (0, t, w, p)
  | none => (-1, peTABType, pnWidth, pnPrecision)

/-- `IMapInfoFile::CreateField` (mitab_imapinfofile.cpp:485-500).
`AddFieldNative` is a virtual method implemented outside this file and is
passed in as a function; the source treats any return `> -1` as success. -/
def createField (addFieldNative : String → TABFieldType → Int → Int → Int)
    (poField : OGRFieldDefn) : OGRErr :=
  match getTABType poField with
  | none => .OGRERR_FAILURE
  | some (t, w, p) =>
      if addFieldNative poField.pszName t w p > -1 then .OGRERR_NONE
      else .OGRERR_FAILURE

/-- Modelled from the spec: the per-field schema-translation loop.  The
generic OGR layer code that invokes `CreateField` once per field of a
schema lives outside these two source files; the spec describes an
unsupported field type as "fatal to that single field-translation call,
does not abort the whole schema", i.e. each field is translated by an
independent `CreateField` call. -/
def createFieldResults (addFieldNative : String → TABFieldType → Int → Int → Int)
    (fields : List OGRFieldDefn) : List OGRErr :=
  fields.map (createField addFieldNative)

/-! ## Geometry and feature model for `CreateTABFeature`/`ICreateFeature` -/

/-- Flattened OGR geometry (`wkbFlatten(eGType)` collapses 2.5D variants
onto their base category, so constructors stand for flattened types).
Only collection types expose their children (`getNumGeometries` /
`getGeometryRef`); the contents of the other types are never inspected
by this file, so they are abstracted to an opaque-payload `Nat`, and
`clone()` is value copying. -/
inductive Geometry where
  | wkbPoint (payload : Nat)
  | wkbLineString (payload : Nat)
  | wkbPolygon (payload : Nat)
  | wkbMultiPolygon (payload : Nat)
  | wkbMultiLineString (payload : Nat)
  | wkbMultiPoint (children : List Geometry)
  | wkbGeometryCollection (children : List Geometry)
  | wkbUnknownGeom (payload : Nat)

/-- A generic `OGRFeature` as consumed by `CreateTABFeature`: FID,
optional geometry (`GetGeometryRef`, NULL becomes `none`), optional style
string (`GetStyleString`), and the raw field values by positional index
(`GetRawFieldRef`), whose contents are abstracted to `Nat`.
`GetDefnRef()->GetFieldCount()` is `fields.length`. -/
structure OGRFeature where
  fid : Int
  geom : Option Geometry
  styleString : Option String
  fields : List Nat

/-- The concrete TABFeature subclass chosen by the geometry dispatch. -/
inductive TABFeatureClass where
  | TABFeatureBase
  | TABPoint
  | TABRegion
  | TABPolyline
  deriving DecidableEq, Repr

/-- A native `TABFeature` as built by `CreateTABFeature`.  The style
setters (`SetSymbolFromStyleString` etc.) are implemented outside this
file; we record the style string each setter was invoked with (`none`
when the setter was not called). -/
structure TABFeature where
  classTag : TABFeatureClass
  symbolStyle : Option String
  penStyle : Option String
  brushStyle : Option String
  tabGeom : Option Geometry
  tabFields : List Nat
  tabFID : Int

/-- `OGRNullFID` from `ogr_core.h`. -/
def OGRNullFID : Int := -1

/-- The low-level persistence virtual `CreateFeature(TABFeature*)` is
implemented by `TABFile`/`MIFFile` outside this file.  It is modelled as
an oracle: the n-th call (0-based) returns `result n`, and on success
assigns FID `assignFID n` to the submitted native feature. -/
structure TABPersist where
  result : Nat → OGRErr
  assignFID : Nat → Int

/-- Observable state of the create path: how many low-level persistence
calls happened and the native features submitted to them, in order, as
they looked at submission time. -/
structure CreateState where
  ncalls : Nat
  submitted : List TABFeature

mutual

/-- `IMapInfoFile::CreateTABFeature` (mitab_imapinfofile.cpp:234-340).
Dispatch on the flattened geometry type; leaf types build the matching
TABFeature subclass, copy a geometry clone, the raw field values and the
FID.  `wkbGeometryCollection`/`wkbMultiPoint` loop over the children of
a cloned temporary feature (FID reset to `OGRNullFID`, geometry replaced
by the child) submitting each through `ICreateFeature` while the status
stays `OGRERR_NONE`, then return NULL (`none`) unconditionally. -/
def createTABFeature (ora : TABPersist) (poFeature : OGRFeature)
    (s : CreateState) : Option TABFeature × CreateState :=
  match hg : poFeature.geom with
  | some (.wkbPoint k) =>
      (some { classTag := .TABPoint, symbolStyle := poFeature.styleString,
              penStyle := none, brushStyle := none,
              tabGeom := some (.wkbPoint k), tabFields := poFeature.fields,
              tabFID := poFeature.fid }, s)
  | some (.wkbPolygon k) =>
      (some { classTag := .TABRegion, symbolStyle := none,
              penStyle := poFeature.styleString, brushStyle := poFeature.styleString,
              tabGeom := some (.wkbPolygon k), tabFields := poFeature.fields,
              tabFID := poFeature.fid }, s)
  | some (.wkbMultiPolygon k) =>
      (some { classTag := .TABRegion, symbolStyle := none,
              penStyle := poFeature.styleString, brushStyle := poFeature.styleString,
              tabGeom := some (.wkbMultiPolygon k), tabFields := poFeature.fields,
              tabFID := poFeature.fid }, s)
  | some (.wkbLineString k) =>
      (some { classTag := .TABPolyline, symbolStyle := none,
              penStyle := poFeature.styleString, brushStyle := none,
              tabGeom := some (.wkbLineString k), tabFields := poFeature.fields,
              tabFID := poFeature.fid }, s)
  | some (.wkbMultiLineString k) =>
      (some { classTag := .TABPolyline, symbolStyle := none,
              penStyle := poFeature.styleString, brushStyle := none,
              tabGeom := some (.wkbMultiLineString k), tabFields := poFeature.fields,
              tabFID := poFeature.fid }, s)
  | some (.wkbGeometryCollection children) =>
      let r := decomposeCollection ora poFeature children s
      (none, r.2)
  | some (.wkbMultiPoint children) =>
      let r := decomposeCollection ora poFeature children s
      (none, r.2)
  | some (.wkbUnknownGeom k) =>
      (some { classTag := .TABFeatureBase, symbolStyle := none,
              penStyle := none, brushStyle := none,
              tabGeom := some (.wkbUnknownGeom k), tabFields := poFeature.fields,
              tabFID := poFeature.fid }, s)
  | none =>
      (some { classTag := .TABFeatureBase, symbolStyle := none,
              penStyle := none, brushStyle := none,
              tabGeom := none, tabFields := poFeature.fields,
              tabFID := poFeature.fid }, s)
termination_by 3 * sizeOf poFeature.geom
decreasing_by
  all_goals simp_wf
  all_goals simp_arith [hg]
  all_goals omega

/-- The child loop of the collection branch (mitab_imapinfofile.cpp:
304-317): iterate over the children in enumeration order while
`eStatus == OGRERR_NONE`, each round resetting the temporary feature's
FID to `OGRNullFID` and replacing its geometry by the child. -/
def decomposeCollection (ora : TABPersist) (poFeature : OGRFeature)
    (children : List Geometry) (s : CreateState) : OGRErr × CreateState :=
  match children with
  | [] => (.OGRERR_NONE, s)
  | c :: rest =>
      let r := iCreateFeature ora
        { poFeature with fid := OGRNullFID, geom := some c } s
      if r.1 = .OGRERR_NONE then decomposeCollection ora poFeature rest r.2.2
      else (r.1, r.2.2)
termination_by 3 * sizeOf children
decreasing_by
  · simp_wf
    have h1 : 1 ≤ sizeOf rest := by cases rest <;> simp_arith
    simp_arith
    omega
  · simp_wf

/-- `IMapInfoFile::ICreateFeature` (mitab_imapinfofile.cpp:348-361).
NULL from `CreateTABFeature` (the collection case) is treated as
success.  Otherwise the native feature is submitted to the low-level
`CreateFeature(TABFeature*)`, and on success the assigned FID is written
back onto the generic feature — the middle component of the result is
the generic feature's FID after the call. -/
def iCreateFeature (ora : TABPersist) (poFeature : OGRFeature)
    (s : CreateState) : OGRErr × Int × CreateState :=
  match createTABFeature ora poFeature s with
  | (none, s1) => (.OGRERR_NONE, poFeature.fid, s1)
  | (some poTABFeature, s1) =>
      let n := s1.ncalls
      let s2 : CreateState :=
        { ncalls := n + 1, submitted := s1.submitted ++ [poTABFeature] }
      let eErr := ora.result n
      (eErr, if eErr = .OGRERR_NONE then ora.assignFID n else poFeature.fid, s2)
termination_by 3 * sizeOf poFeature.geom + 1
decreasing_by
  simp_wf

end

/-! ## Case-insensitive string helpers (CPL `EQUAL` / `EQUALN` / `STARTS_WITH_CI`) -/

/-- ASCII lower-casing of one character, as the `tolower` the CPL
comparison macros apply. -/
def lowerChar (c : Char) : Char :=
  if 'A' ≤ c ∧ c ≤ 'Z' then Char.ofNat (c.toNat + 32) else c

/-- CPL `EQUAL`: case-insensitive string equality. -/
def ciEq (a b : String) : Bool :=
  a.toList.map lowerChar == b.toList.map lowerChar

/-- CPL `EQUALN(a, b, n)`: case-insensitive comparison of the first `n`
characters; a string shorter than `n` matches only a string of the same
length, as `strncasecmp` stops at the terminator. -/
def ciEqN (a b : String) (n : Nat) : Bool :=
  (a.toList.take n).map lowerChar == (b.toList.take n).map lowerChar

/-- CPL `STARTS_WITH_CI(s, p)`, i.e. `EQUALN(s, p, strlen(p))`. -/
def startsWithCI (s p : String) : Bool :=
  ciEqN s p p.toList.length

/-! ## NAS data model (`ogrnasdatasource.cpp`) -/

/-- The GML property-type enumeration (`GMLPropertyType`), restricted to
the constructors of this source revision. -/
inductive GMLPropertyType where
  | GMLPT_Untyped
  | GMLPT_String
  | GMLPT_Integer
  | GMLPT_Real
  | GMLPT_Complex
  | GMLPT_StringList
  | GMLPT_IntegerList
  | GMLPT_RealList
  | GMLPT_FeatureProperty
  | GMLPT_FeaturePropertyList
  deriving DecidableEq, Repr

/-- A GML property definition: name, semantic type and width, as read
through `GetName`, `GetType` and `GetWidth`. -/
structure GMLPropertyDefn where
  propName : String
  propType : GMLPropertyType
  propWidth : Int
  deriving DecidableEq, Repr

/-- A GML geometry property; only its declared type code (`GetType`, an
`OGRwkbGeometryType` integer) is consumed here. -/
structure GMLGeometryPropertyDefn where
  geomType : Int
  deriving DecidableEq, Repr

/-- `wkbUnknown` of `OGRwkbGeometryType`. -/
def wkbUnknown : Int := 0

/-- `wkbNone` of `OGRwkbGeometryType`. -/
def wkbNone : Int := 100

/-- A parsed GML feature class as consumed by `TranslateNASSchema`:
name, declared geometry properties, reported feature count
(`GetFeatureCount`, `-1` when unknown), optional SRS name and the
ordered property list. -/
structure GMLFeatureClass where
  className : String
  geometryProperties : List GMLGeometryPropertyDefn
  nFeatureCount : Int
  srsName : Option String
  properties : List GMLPropertyDefn
  deriving DecidableEq, Repr

/-- A produced NAS layer.  The spatial-reference object is identified by
the user-input string it was successfully built from (`none` when no
SRS is attached). -/
structure OGRNASLayer where
  layerName : String
  layerSRS : Option String
  layerGeomType : Int
  layerFields : List OGRFieldDefn
  deriving DecidableEq, Repr

/-- The static urn-alias table `apszURNNames`
(ogrnasdatasource.cpp:36-43), as (target, substitute) pairs. -/
def apszURNNames : List (String × String) :=
  [("DE_DHDN_3GK2_*", "EPSG:31466"),
   ("DE_DHDN_3GK3_*", "EPSG:31467"),
   ("ETRS89_UTM32", "EPSG:25832"),
   ("ETRS89_UTM33", "EPSG:25833")]

/-- `strrchr(pszSRSName, ':')` followed by `+ 1`: the characters after
the last colon, or `none` when the string has no colon (a NULL
`strrchr` result). -/
def afterLastColon (s : String) : Option String :=
  if s.toList.contains ':' then
    some (String.mk ((s.toList.reverse.takeWhile (fun c => c ≠ ':')).reverse))
  else none

/-- The alias-substitution loop of `TranslateNASSchema`
(ogrnasdatasource.cpp:221-237): for every table entry in order, a target
ending in `*` is matched over its length minus one (`EQUALN`), any other
target is matched exactly (`EQUAL`); each match replaces the current SRS
name by the entry's substitute. -/
def substituteURN (pszHandle pszSRSName : String) : String :=
  apszURNNames.foldl (fun cur entry =>
    let pszTarget := entry.1
    let nTLen := pszTarget.toList.length
    if pszTarget.toList.getLast? = some '*' then
      if ciEqN pszTarget pszHandle (nTLen - 1) then entry.2 else cur
    else
      if ciEq pszTarget pszHandle then entry.2 else cur) pszSRSName

/-- `OGRNASDataSource::TranslateNASSchema` (ogrnasdatasource.cpp:193-291).
`setFromUserInput` abstracts `OGRSpatialReference::SetFromUserInput`
(implemented outside this file): it decides whether a spatial-reference
object can be built from the given string. -/
def translateNASSchema (setFromUserInput : String → Bool)
    (poClass : GMLFeatureClass) : OGRNASLayer :=
  let eGType : Int :=
    match poClass.geometryProperties with
    | [] => wkbNone
    | gp :: _ => if poClass.nFeatureCount = 0 then wkbUnknown else gp.geomType
  let poSRS : Option String :=
    match poClass.srsName with
    | none => none
    | some pszSRSName0 =>
        match afterLastColon pszSRSName0 with
        | none => none
        | some pszHandle =>
            let pszSRSName := substituteURN pszHandle pszSRSName0
            if setFromUserInput pszSRSName then some pszSRSName else none
  let layerFields := poClass.properties.map (fun poProperty =>
    let eFType : OGRFieldType :=
      match poProperty.propType with
      | .GMLPT_Untyped => .OFTString
      | .GMLPT_String => .OFTString
      | .GMLPT_Integer => .OFTInteger
      | .GMLPT_Real => .OFTReal
      | .GMLPT_StringList => .OFTStringList
      | .GMLPT_IntegerList => .OFTIntegerList
      | .GMLPT_RealList => .OFTRealList
      | _ => .OFTString
    let nm :=
      if startsWithCI poProperty.propName "ogr:" then
        String.mk (poProperty.propName.toList.drop 4)
      else poProperty.propName
    { pszName := nm, eType := eFType,
      nWidth := if poProperty.propWidth > 0 then poProperty.propWidth else 0,
      nPrecision := 0 })
  { layerName := poClass.className, layerSRS := poSRS,
    layerGeomType := eGType, layerFields := layerFields }

/-! ## Relation extraction (`PopulateRelations`) -/

/-- A GML property value list (`GMLProperty`): `nSubProperties` is the
list length, `papszSubProperties` its entries. -/
structure GMLProperty where
  papszSubProperties : List String
  deriving DecidableEq, Repr

/-- A parsed GML feature as consumed by `PopulateRelations`.  `gmlId`
models `GetClass()->GetPropertyIndex("gml_id")` combined with
`GetProperty` (both provided by the GML reader outside this file):
`none` when the class has no `gml_id` property or `GetProperty` yields
NULL.  `obProperties` models `GetOBProperties()` with each `name=value`
string already split by `CPLParseNameValue` (also external to this
file). -/
structure GMLFeature where
  gmlId : Option GMLProperty
  obProperties : List (String × String)
  deriving DecidableEq, Repr

/-- One extracted relation: the three arguments of
`OGRNASRelationLayer::AddRelation`. -/
structure RelationRec where
  relSource : String
  relName : String
  relTarget : String
  deriving DecidableEq, Repr

/-- The relation layer's observable state: accumulated relations and the
number of `MarkRelationsPopulated` calls so far. -/
structure RelationLayerState where
  aoRelations : List RelationRec
  populatedMarks : Nat
  deriving DecidableEq, Repr

/-- `OGRNASRelationLayer::AddRelation` (implemented outside this file):
appends one relation record. -/
def addRelation (layer : RelationLayerState) (s n t : String) : RelationLayerState :=
  { layer with aoRelations := layer.aoRelations ++ [⟨s, n, t⟩] }

/-- `OGRNASRelationLayer::MarkRelationsPopulated` (implemented outside
this file): sets the populated marker; we count the calls. -/
def markRelationsPopulated (layer : RelationLayerState) : RelationLayerState :=
  { layer with populatedMarks := layer.populatedMarks + 1 }

/-- The per-feature loop body of `OGRNASDataSource::PopulateRelations`
(ogrnasdatasource.cpp:327-349): for each OB property `(name, value)`,
add a relation when the value starts case-insensitively with
`"urn:adv:oid:"` and the feature's `gml_id` property exists with exactly
one value; the source is that single value and the target is the value
with its first 12 characters (`pszValue + 12`) removed. -/
def populateRelationsFeature (layer : RelationLayerState)
    (poFeature : GMLFeature) : RelationLayerState :=
  poFeature.obProperties.foldl (fun ly nv =>
    if startsWithCI nv.2 "urn:adv:oid:" then
      match poFeature.gmlId with
      | some psGMLId =>
          if psGMLId.papszSubProperties.length = 1 then
            addRelation ly (psGMLId.papszSubProperties.headD "") nv.1
              (String.mk (nv.2.toList.drop 12))
          else ly
      | none => ly
    else ly) layer

/-- `OGRNASDataSource::PopulateRelations` (ogrnasdatasource.cpp:319-355):
one forward pass over the feature stream, then a single
`MarkRelationsPopulated` call. -/
def populateRelations (features : List GMLFeature)
    (layer : RelationLayerState) : RelationLayerState :=
  markRelationsPopulated (features.foldl populateRelationsFeature layer)

/-- Whether one OB property of a feature satisfies the emission
condition of `PopulateRelations`. -/
def obRelationOk (poFeature : GMLFeature) (nv : String × String) : Bool :=
  startsWithCI nv.2 "urn:adv:oid:" &&
    (match poFeature.gmlId with
     | some p => p.papszSubProperties.length == 1
     | none => false)

/-- The relations one feature contributes, per the claim's
characterization: one record per OB property whose value carries the
recognized object-identifier prefix, provided the feature's identifier
property has exactly one value. -/
def emittedRelations (poFeature : GMLFeature) : List RelationRec :=
  poFeature.obProperties.filterMap (fun nv =>
    if obRelationOk poFeature nv then
      some { relSource :=
               (match poFeature.gmlId with
                | some p => p.papszSubProperties.headD ""
                | none => ""),
             relName := nv.1,
             relTarget := String.mk (nv.2.toList.drop 12) }
    else none)

/-! ## Layer assembly in `Open`, and `GetLayer` -/

/-- A dataset layer slot: a translated class layer or the synthetic
relation layer (`OGRNASRelationLayer`). -/
inductive NASDSLayer where
  | classLayer (l : OGRNASLayer)
  | relationLayer
  deriving DecidableEq, Repr

/-- `GetName()` of a stored layer; the code modelled here only invokes
it on translated class layers. -/
def nasLayerName : NASDSLayer → String
  | .classLayer l => l.layerName
  | .relationLayer => ""

/-- The layer-assembly tail of `OGRNASDataSource::Open`
(ogrnasdatasource.cpp:161-184): translate every class in order, then
append the relation layer — except that a trailing translated layer
named `"Delete"` (`EQUAL`, case-insensitive) stays last, with the
relation layer inserted just before it. -/
def openLayerAssembly (setFromUserInput : String → Bool)
    (classes : List GMLFeatureClass) : List NASDSLayer :=
  let papoLayers := classes.map
    (fun c => NASDSLayer.classLayer (translateNASSchema setFromUserInput c))
  match papoLayers.getLast? with
  | some lastLayer =>
      if ciEq (nasLayerName lastLayer) "Delete" then
        papoLayers.dropLast ++ [NASDSLayer.relationLayer, lastLayer]
      else papoLayers ++ [NASDSLayer.relationLayer]
  | none => papoLayers ++ [NASDSLayer.relationLayer]

/-- `OGRNASDataSource::GetLayer` (ogrnasdatasource.cpp:297-304): NULL
for an index outside `[0, nLayers)`. -/
def getLayer (papoLayers : List NASDSLayer) (iLayer : Int) : Option NASDSLayer :=
  if iLayer < 0 ∨ iLayer ≥ (papoLayers.length : Int) then none
  else papoLayers[iLayer.toNat]?

/-- Vocabulary for the amended claim C7 — the spec's table of native
types for the supported non-`Real` generic types. -/
def specNativeType : OGRFieldType → TABFieldType
  | .OFTInteger => .TABFInteger
  | .OFTString => .TABFChar
  | .OFTDate => .TABFDate
  | .OFTTime => .TABFTime
  | .OFTDateTime => .TABFDateTime
  | _ => .TABFUnknown

/-- Vocabulary for the amended claim C7 — the spec's table of default
widths applied when the input width is 0. -/
def specDefaultWidth : OGRFieldType → Int
  | .OFTInteger => 12
  | .OFTDate => 10
  | .OFTTime => 9
  | .OFTDateTime => 19
  | .OFTString => 254
  | _ => 0

/-- Vocabulary for claims C1/C3 — the native feature the create path
submits for one point child of a decomposed collection: a `TABPoint`
carrying the parent's style string, fields and a clone of the child
geometry, with FID reset to `OGRNullFID`. -/
def pointChildTAB (poFeature : OGRFeature) (g : Geometry) : TABFeature :=
  { classTag := .TABPoint, symbolStyle := poFeature.styleString,
    penStyle := none, brushStyle := none, tabGeom := some g,
    tabFields := poFeature.fields, tabFID := OGRNullFID }

/-- Vocabulary for claim C2 — the claimed width clamp for `Decimal`:
width above 20 becomes 20. -/
def clampDecimalWidth (w : Int) : Int :=
  if w > 20 then 20 else w

/-- Vocabulary for claim C2 — the claimed precision clamp for `Decimal`,
applied after the width clamp: precision := width − 2 when
width − precision < 2, then precision above 16 becomes 16. -/
def clampDecimalPrec (w p : Int) : Int :=
  let w1 := clampDecimalWidth w
  let p1 := if w1 - p < 2 then w1 - 2 else p
  if p1 > 16 then 16 else p1

/-! ## Theorems: field-type mapping (`GetTABType`, `CreateField`) -/

/-- C2: for every generic `Real` field, `GetTABType` returns `Float`
with width 32 exactly when both input width and precision are 0; in
every other case it returns `Decimal`, with width and precision obtained
by clamping in the order width>20→20, then precision := width−2 when
width−precision<2, then precision>16→16, and the clamped values satisfy
width ≤ 20, precision ≤ 16 and width − precision ≥ 2. -/
theorem getTABType_real_spec (nm : String) (w p : Int) :
    (getTABType ⟨nm, .OFTReal, w, p⟩ = some (.TABFFloat, 32, 0) ↔ w = 0 ∧ p = 0)
    ∧ (¬(w = 0 ∧ p = 0) →
        getTABType ⟨nm, .OFTReal, w, p⟩ =
          some (.TABFDecimal, clampDecimalWidth w, clampDecimalPrec w p)
        ∧ clampDecimalWidth w ≤ 20 ∧ clampDecimalPrec w p ≤ 16
        ∧ clampDecimalWidth w - clampDecimalPrec w p ≥ 2) := by
  have hred : getTABType ⟨nm, .OFTReal, w, p⟩ =
      (if w = 0 ∧ p = 0 then some (.TABFFloat, 32, p)
       else if w > 20 ∨ w - p < 2 ∨ p > 16 then
         some (.TABFDecimal, if w > 20 then 20 else w,
               if (if (if w > 20 then (20 : Int) else w) - p < 2 then
                     (if w > 20 then (20 : Int) else w) - 2 else p) > 16 then 16
               else (if (if w > 20 then (20 : Int) else w) - p < 2 then
                       (if w > 20 then (20 : Int) else w) - 2 else p))
       else some (.TABFDecimal, w, p)) := rfl
  constructor
  · constructor
    · intro h
      by_contra h0
      rw [hred, if_neg h0] at h
      split_ifs at h <;> simp at h
    · rintro ⟨hw, hp⟩
      rw [hred, if_pos ⟨hw, hp⟩, hp]
  · intro h0
    refine ⟨?_, ?_, ?_, ?_⟩
    · rw [hred, if_neg h0]
      simp only [clampDecimalWidth, clampDecimalPrec]
      split_ifs <;> simp_all
    · simp only [clampDecimalWidth]
      split_ifs <;> omega
    · simp only [clampDecimalWidth, clampDecimalPrec]
      split_ifs <;> omega
    · simp only [clampDecimalWidth, clampDecimalPrec]
      split_ifs <;> omega

/-- Witness for C2 at the concrete input width 25, precision 20. -/
theorem getTABType_real_spec_witness :
    ¬((25 : Int) = 0 ∧ (20 : Int) = 0)
    ∧ getTABType ⟨"x", .OFTReal, 25, 20⟩ = some (.TABFDecimal, 20, 16)
    ∧ clampDecimalWidth 25 = 20 ∧ clampDecimalPrec 25 20 = 16 := by
  have h := (getTABType_real_spec "x" 25 20).2 (by norm_num)
  have hw : clampDecimalWidth 25 = 20 := by decide
  have hp : clampDecimalPrec 25 20 = 16 := by decide
  rw [hw, hp] at h
  exact ⟨by norm_num, h.1, hw, hp⟩

/-- C7 counterexample: `Real` is a supported generic type that is not
`String`, yet `GetTABType` alters its nonzero input width — width 25,
precision 20 comes back as width 20, precision 16. -/
theorem getTABType_alters_real_width :
    isTABSupportedType .OFTReal = true
    ∧ OGRFieldType.OFTReal ≠ .OFTString
    ∧ getTABType ⟨"f", .OFTReal, 25, 20⟩ = some (.TABFDecimal, 20, 16)
    ∧ (20 : Int) ≠ 25 := by
  refine ⟨rfl, by decide, ?_, by decide⟩
  decide

/-- C7 (amended): for every generic field of a supported type other
than `Real`, `GetTABType` applies the documented default width exactly
when the input width is 0 (Integer→12, Date→10, Time→9, DateTime→19,
String→254), passes any nonzero width through unchanged except for
`String`, where the returned width is min(input width, 254) — hence
never above 254 — and leaves the precision untouched. -/
theorem getTABType_default_widths (nm : String) (ty : OGRFieldType) (w p : Int)
    (hs : isTABSupportedType ty = true) (hr : ty ≠ .OFTReal) :
    getTABType ⟨nm, ty, w, p⟩ =
      some (specNativeType ty,
            if w = 0 then specDefaultWidth ty
            else if ty = .OFTString then min 254 w else w,
            p) := by
  cases ty <;>
    simp_all [getTABType, isTABSupportedType, specNativeType, specDefaultWidth]

/-- Witness for C7 (amended) at a `String` field of width 300. -/
theorem getTABType_default_widths_witness :
    getTABType ⟨"s", .OFTString, 300, 1⟩ = some (.TABFChar, 254, 1) := by
  have h := getTABType_default_widths "s" .OFTString 300 1 rfl (by decide)
  simpa using h

/-- C8: `GetTABType` fails exactly on the generic types outside
{Integer, Real, String, Date, Time, DateTime} (in particular on every
list type); on failure it writes none of its three out-parameters, and
`CreateField` then returns failure for that single field, while
per-field translation of a whole field list leaves every other field's
result untouched. -/
theorem getTABType_unsupported (f : OGRFieldDefn) :
    (getTABType f = none ↔ isTABSupportedType f.eType = false)
    ∧ (getTABType f = none →
        (∀ t w p, getTABTypeOut f t w p = (-1, t, w, p))
        ∧ ∀ add, createField add f = .OGRERR_FAILURE)
    ∧ (∀ add pre post,
        createFieldResults add (pre ++ f :: post) =
          createFieldResults add pre ++
            createField add f :: createFieldResults add post) := by
  refine ⟨?_, ?_, ?_⟩
  · obtain ⟨nm, ty, w, p⟩ := f
    cases ty <;> simp [getTABType, isTABSupportedType] <;> split_ifs <;> simp
  · intro h
    refine ⟨fun t w p => ?_, fun add => ?_⟩
    · simp [getTABTypeOut, h]
    · simp [createField, h]
  · intro add pre post
    simp [createFieldResults]

/-- Witness for C8 at a concrete `IntegerList` field. -/
theorem getTABType_unsupported_witness :
    getTABType ⟨"l", .OFTIntegerList, 0, 0⟩ = none
    ∧ getTABTypeOut ⟨"l", .OFTIntegerList, 0, 0⟩ .TABFChar 7 8 = (-1, .TABFChar, 7, 8)
    ∧ createField (fun _ _ _ _ => 0) ⟨"l", .OFTIntegerList, 0, 0⟩ = .OGRERR_FAILURE := by
  obtain ⟨h1, h2, _⟩ := getTABType_unsupported ⟨"l", .OFTIntegerList, 0, 0⟩
  have hn : getTABType ⟨"l", .OFTIntegerList, 0, 0⟩ = none := h1.mpr rfl
  exact ⟨hn, (h2 hn).1 .TABFChar 7 8, (h2 hn).2 _⟩

/-- C10: on every `Real` field with width strictly between 0 and 2 and
nonnegative precision, `GetTABType` succeeds with `Decimal`, the input
width, and the negative precision width − 2; so the mapping does not
guarantee a nonnegative precision on its Decimal outputs. -/
theorem getTABType_negative_precision (nm : String) (w p : Int)
    (h1 : 0 < w) (h2 : w < 2) (h3 : 0 ≤ p) :
    getTABType ⟨nm, .OFTReal, w, p⟩ = some (.TABFDecimal, w, w - 2)
    ∧ w - 2 < 0 := by
  have hw : w = 1 := by omega
  subst hw
  obtain ⟨hr, -, -, -⟩ := (getTABType_real_spec nm 1 p).2 (by omega)
  have hcw : clampDecimalWidth 1 = 1 := by decide
  have hcp : clampDecimalPrec 1 p = -1 := by
    simp only [clampDecimalPrec, clampDecimalWidth]
    split_ifs <;> omega
  rw [hcw, hcp] at hr
  exact ⟨by simpa using hr, by norm_num⟩

/-- Witness for C10 at width 1, precision 0. -/
theorem getTABType_negative_precision_witness :
    getTABType ⟨"f", .OFTReal, 1, 0⟩ = some (.TABFDecimal, 1, -1)
    ∧ (-1 : Int) < 0 := by
  have h := getTABType_negative_precision "f" 1 0 (by norm_num) (by norm_num)
    (le_refl 0)
  simpa using h

/-! ## Theorems: collection decomposition (`CreateTABFeature`/`ICreateFeature`) -/

/-- One decomposed point child submitted through `ICreateFeature`: the
`TABPoint` built from the temporary feature is handed to the n-th
low-level persistence call, whose status is returned. -/
theorem iCreateFeature_point_child (ora : TABPersist) (f : OGRFeature)
    (k : Nat) (s : CreateState) :
    iCreateFeature ora { f with fid := OGRNullFID, geom := some (.wkbPoint k) } s =
      (ora.result s.ncalls,
       if ora.result s.ncalls = .OGRERR_NONE then ora.assignFID s.ncalls
       else OGRNullFID,
       { ncalls := s.ncalls + 1,
         submitted := s.submitted ++ [pointChildTAB f (.wkbPoint k)] }) := by
  simp [iCreateFeature, createTABFeature, pointChildTAB]

/-- When every persistence call succeeds, the child loop submits every
point child, in order, with FID `OGRNullFID`, and ends with status
`OGRERR_NONE`. -/
theorem decomposeCollection_points_ok (ora : TABPersist)
    (hok : ∀ n, ora.result n = .OGRERR_NONE) (f : OGRFeature)
    (ps : List Geometry) (hpts : ∀ g ∈ ps, ∃ k, g = .wkbPoint k)
    (s : CreateState) :
    decomposeCollection ora f ps s =
      (.OGRERR_NONE,
       { ncalls := s.ncalls + ps.length,
         submitted := s.submitted ++ ps.map (pointChildTAB f) }) := by
  induction ps generalizing s with
  | nil => simp [decomposeCollection]
  | cons c rest ih =>
      obtain ⟨k, rfl⟩ := hpts c (by simp)
      rw [decomposeCollection, iCreateFeature_point_child]
      simp only [hok, if_true]
      rw [ih (fun g hgm => hpts g (by simp [hgm]))
          ⟨s.ncalls + 1, s.submitted ++ [pointChildTAB f (.wkbPoint k)]⟩]
      simp [List.append_assoc]
      omega

/-- `CreateTABFeature` on a collection-typed feature runs the child loop
and returns NULL, and `ICreateFeature` then reports `OGRERR_NONE` with
the feature's FID untouched. -/
theorem createTABFeature_collection (ora : TABPersist) (f : OGRFeature)
    (cs : List Geometry) (s : CreateState)
    (hg : f.geom = some (.wkbGeometryCollection cs)
          ∨ f.geom = some (.wkbMultiPoint cs)) :
    createTABFeature ora f s = (none, (decomposeCollection ora f cs s).2)
    ∧ iCreateFeature ora f s =
        (.OGRERR_NONE, f.fid, (decomposeCollection ora f cs s).2) := by
  obtain ⟨fid, geom, style, flds⟩ := f
  simp only at hg
  rcases hg with hg | hg <;> subst hg <;>
    constructor <;> simp [iCreateFeature, createTABFeature]

/-- C3: for a feature whose geometry is a MultiPoint of point children,
when every persistence call succeeds the create path submits exactly one
single-Point native feature per child, in the collection's enumeration
order, each with FID `OGRNullFID` at submission; `CreateTABFeature`
itself produces no native feature (NULL) and the top-level
`ICreateFeature` reports `OGRERR_NONE` with the feature's own FID
untouched. -/
theorem multipoint_create_spec (ora : TABPersist) (f : OGRFeature)
    (ps : List Geometry) (s : CreateState)
    (hok : ∀ n, ora.result n = .OGRERR_NONE)
    (hg : f.geom = some (.wkbMultiPoint ps))
    (hpts : ∀ g ∈ ps, ∃ k, g = .wkbPoint k) :
    createTABFeature ora f s =
      (none, { ncalls := s.ncalls + ps.length,
               submitted := s.submitted ++ ps.map (pointChildTAB f) })
    ∧ iCreateFeature ora f s =
      (.OGRERR_NONE, f.fid,
       { ncalls := s.ncalls + ps.length,
         submitted := s.submitted ++ ps.map (pointChildTAB f) })
    ∧ ∀ g, (pointChildTAB f g).tabFID = OGRNullFID
        ∧ (pointChildTAB f g).classTag = .TABPoint
        ∧ (pointChildTAB f g).tabGeom = some g := by
  have hc := createTABFeature_collection ora f ps s (Or.inr hg)
  have hd := decomposeCollection_points_ok ora hok f ps hpts s
  rw [hd] at hc
  exact ⟨hc.1, hc.2, fun g => ⟨rfl, rfl, rfl⟩⟩

/-- Witness for C3: a MultiPoint of two points, an always-succeeding
persistence oracle; both points are submitted in order with FID −1 and
the top-level call succeeds. -/
theorem multipoint_create_spec_witness :
    iCreateFeature ⟨fun _ => .OGRERR_NONE, fun _ => 7⟩
        ⟨5, some (.wkbMultiPoint [.wkbPoint 0, .wkbPoint 1]), some "SYM", [3]⟩
        ⟨0, []⟩ =
      (.OGRERR_NONE, 5,
       ⟨2, [⟨.TABPoint, some "SYM", none, none, some (.wkbPoint 0), [3], -1⟩,
            ⟨.TABPoint, some "SYM", none, none, some (.wkbPoint 1), [3], -1⟩]⟩) := by
  have h := (multipoint_create_spec ⟨fun _ => .OGRERR_NONE, fun _ => 7⟩
      ⟨5, some (.wkbMultiPoint [.wkbPoint 0, .wkbPoint 1]), some "SYM", [3]⟩
      [.wkbPoint 0, .wkbPoint 1] ⟨0, []⟩ (fun _ => rfl) rfl
      (by intro g hgm
          simp only [List.mem_cons, List.not_mem_nil, or_false] at hgm
          rcases hgm with h | h
          · exact ⟨0, h⟩
          · exact ⟨1, h⟩)).2.1
  simpa [pointChildTAB, OGRNullFID] using h

/-- C1 counterexample: a GeometryCollection of two points with a
persistence oracle whose very first call fails.  The child loop stops
after one submission, but the top-level `ICreateFeature` still returns
`OGRERR_NONE` — the sub-creation failure is not returned to the
caller. -/
theorem collection_child_failure_counterexample :
    (⟨fun _ => .OGRERR_FAILURE, fun _ => 0⟩ : TABPersist).result 0 = .OGRERR_FAILURE
    ∧ iCreateFeature ⟨fun _ => .OGRERR_FAILURE, fun _ => 0⟩
        ⟨5, some (.wkbGeometryCollection [.wkbPoint 0, .wkbPoint 1]), none, []⟩
        ⟨0, []⟩ =
      (.OGRERR_NONE, 5,
       ⟨1, [⟨.TABPoint, none, none, none, some (.wkbPoint 0), [], -1⟩]⟩) := by
  refine ⟨rfl, ?_⟩
  have hc := createTABFeature_collection ⟨fun _ => .OGRERR_FAILURE, fun _ => 0⟩
      ⟨5, some (.wkbGeometryCollection [.wkbPoint 0, .wkbPoint 1]), none, []⟩
      [.wkbPoint 0, .wkbPoint 1] ⟨0, []⟩ (Or.inl rfl)
  have hd : decomposeCollection (⟨fun _ => .OGRERR_FAILURE, fun _ => 0⟩ : TABPersist)
      (⟨5, some (.wkbGeometryCollection [.wkbPoint 0, .wkbPoint 1]), none, []⟩ : OGRFeature)
      [.wkbPoint 0, .wkbPoint 1] ⟨0, []⟩ =
      (.OGRERR_FAILURE,
       ⟨1, [⟨.TABPoint, none, none, none, some (.wkbPoint 0), [], -1⟩]⟩) := by
    rw [decomposeCollection, iCreateFeature_point_child]
    simp [pointChildTAB, OGRNullFID]
  rw [hc.2, hd]

/-- C1 (amended): if the creation of a decomposed child feature fails,
the create path stops processing the remaining child geometries, but
`ICreateFeature` nevertheless returns `OGRERR_NONE` to its caller (the
collection branch of `CreateTABFeature` returns NULL unconditionally, and
`ICreateFeature` maps NULL to success), so the failure is not
propagated. -/
theorem collection_child_failure_swallowed (ora : TABPersist) (f : OGRFeature)
    (cs : List Geometry) (s : CreateState)
    (hg : f.geom = some (.wkbGeometryCollection cs)
          ∨ f.geom = some (.wkbMultiPoint cs)) :
    (iCreateFeature ora f s).1 = .OGRERR_NONE
    ∧ (∀ c rest k, cs = c :: rest → c = .wkbPoint k →
        ora.result s.ncalls ≠ .OGRERR_NONE →
        iCreateFeature ora f s =
          (.OGRERR_NONE, f.fid,
           { ncalls := s.ncalls + 1,
             submitted := s.submitted ++ [pointChildTAB f c] })) := by
  have hc := createTABFeature_collection ora f cs s hg
  refine ⟨by rw [hc.2], ?_⟩
  rintro c rest k rfl rfl hfail
  have hd : decomposeCollection ora f (.wkbPoint k :: rest) s =
      (ora.result s.ncalls,
       { ncalls := s.ncalls + 1,
         submitted := s.submitted ++ [pointChildTAB f (.wkbPoint k)] }) := by
    rw [decomposeCollection, iCreateFeature_point_child]
    simp [hfail]
  rw [hc.2, hd]

/-- Witness for C1 (amended): concrete MultiPoint of two points with an
always-failing oracle — one submission, remaining sibling skipped,
top-level success. -/
theorem collection_child_failure_swallowed_witness :
    iCreateFeature ⟨fun _ => .OGRERR_FAILURE, fun _ => 0⟩
        ⟨9, some (.wkbMultiPoint [.wkbPoint 4, .wkbPoint 5]), none, [2]⟩
        ⟨0, []⟩ =
      (.OGRERR_NONE, 9,
       ⟨1, [⟨.TABPoint, none, none, none, some (.wkbPoint 4), [2], -1⟩]⟩) := by
  have h := (collection_child_failure_swallowed
      ⟨fun _ => .OGRERR_FAILURE, fun _ => 0⟩
      ⟨9, some (.wkbMultiPoint [.wkbPoint 4, .wkbPoint 5]), none, [2]⟩
      [.wkbPoint 4, .wkbPoint 5] ⟨0, []⟩ (Or.inr rfl)).2
      (.wkbPoint 4) [.wkbPoint 5] 4 rfl rfl (by decide)
  simpa [pointChildTAB, OGRNullFID] using h

/-! ## Theorems: relation extraction (`PopulateRelations`) -/

/-- Unfolding step: the relation loop over a nonempty OB-property list
first processes the head property, then the tail. -/
theorem populateRelationsFeature_cons (gid : Option GMLProperty)
    (nv : String × String) (rest : List (String × String))
    (layer : RelationLayerState) :
    populateRelationsFeature layer ⟨gid, nv :: rest⟩ =
      populateRelationsFeature
        (if startsWithCI nv.2 "urn:adv:oid:" then
           match gid with
           | some psGMLId =>
               if psGMLId.papszSubProperties.length = 1 then
                 addRelation layer (psGMLId.papszSubProperties.headD "") nv.1
                   (String.mk (nv.2.toList.drop 12))
               else layer
           | none => layer
         else layer) ⟨gid, rest⟩ := by
  simp [populateRelationsFeature]

/-- One feature's pass through the relation loop appends exactly its
emitted relations and touches nothing else. -/
theorem populateRelationsFeature_spec (layer : RelationLayerState) (f : GMLFeature) :
    populateRelationsFeature layer f =
      { layer with aoRelations := layer.aoRelations ++ emittedRelations f } := by
  obtain ⟨gid, obs⟩ := f
  induction obs generalizing layer with
  | nil => simp [populateRelationsFeature, emittedRelations]
  | cons nv rest ih =>
      rw [populateRelationsFeature_cons, ih]
      cases hsw : startsWithCI nv.2 "urn:adv:oid:" <;>
        cases gid with
      | none =>
          simp [emittedRelations, obRelationOk, hsw]
      | some p =>
          by_cases hlen : p.papszSubProperties.length = 1 <;>
            simp [emittedRelations, obRelationOk, hsw, hlen, addRelation,
              List.append_assoc]

/-- C4: `PopulateRelations` appends, for every feature in stream order
and every OB property in list order, exactly one relation record per
property whose value carries the recognized `urn:adv:oid:` prefix on a
feature whose `gml_id` property has exactly one value (source = that
value, name = the parsed property name, target = the value with the
prefix stripped) — and no other record — and marks the relation
collection populated exactly once after the pass. -/
theorem populateRelations_spec (features : List GMLFeature)
    (layer : RelationLayerState) :
    populateRelations features layer =
      { aoRelations := layer.aoRelations ++ features.flatMap emittedRelations,
        populatedMarks := layer.populatedMarks + 1 } := by
  unfold populateRelations
  induction features generalizing layer with
  | nil => simp [markRelationsPopulated]
  | cons f fs ih =>
      simp only [List.foldl_cons]
      rw [populateRelationsFeature_spec, ih]
      simp [markRelationsPopulated, List.flatMap_cons, List.append_assoc]

/-! ## Theorems: NAS schema translation -/

/-- C5: the produced layer's geometry type is `wkbNone` when the class
declares no geometry property; with at least one geometry property it is
the first property's declared type when the reported feature count is
nonzero, and is forced to `wkbUnknown` when the reported feature count
is zero. -/
theorem translateNASSchema_geomtype (ctor : String → Bool)
    (poClass : GMLFeatureClass) :
    (poClass.geometryProperties = [] →
        (translateNASSchema ctor poClass).layerGeomType = wkbNone)
    ∧ (∀ gp rest, poClass.geometryProperties = gp :: rest →
        poClass.nFeatureCount = 0 →
        (translateNASSchema ctor poClass).layerGeomType = wkbUnknown)
    ∧ (∀ gp rest, poClass.geometryProperties = gp :: rest →
        poClass.nFeatureCount ≠ 0 →
        (translateNASSchema ctor poClass).layerGeomType = gp.geomType) := by
  refine ⟨fun h => ?_, fun gp rest h h0 => ?_, fun gp rest h h0 => ?_⟩
  · simp [translateNASSchema, h]
  · simp [translateNASSchema, h, h0]
  · simp [translateNASSchema, h, h0]

/-- Witness for C5: a class with one declared Polygon (code 3) geometry
property and zero reported features translates to geometry type
`wkbUnknown`, not Polygon. -/
theorem translateNASSchema_geomtype_witness :
    (translateNASSchema (fun _ => true)
        ⟨"cls", [⟨3⟩], 0, none, []⟩).layerGeomType = wkbUnknown := by
  exact (translateNASSchema_geomtype (fun _ => true)
    ⟨"cls", [⟨3⟩], 0, none, []⟩).2.1 ⟨3⟩ [] rfl rfl

/-- `ciEq` unfolded to equality of lower-cased character lists. -/
theorem ciEq_iff (a b : String) :
    ciEq a b = true ↔ a.toList.map lowerChar = b.toList.map lowerChar := by
  simp [ciEq]

/-- `ciEqN` unfolded to equality of lower-cased truncated character
lists. -/
theorem ciEqN_iff (a b : String) (n : Nat) :
    ciEqN a b n = true ↔
      (a.toList.take n).map lowerChar = (b.toList.take n).map lowerChar := by
  simp [ciEqN]

/-- The urn-alias loop evaluated over the four concrete table entries:
the last matching entry wins, and with no match the SRS name is kept. -/
theorem substituteURN_eval (hdl s0 : String) :
    substituteURN hdl s0 =
      (if ciEq "ETRS89_UTM33" hdl then "EPSG:25833"
       else if ciEq "ETRS89_UTM32" hdl then "EPSG:25832"
       else if ciEqN "DE_DHDN_3GK3_*" hdl 13 then "EPSG:31467"
       else if ciEqN "DE_DHDN_3GK2_*" hdl 13 then "EPSG:31466"
       else s0) := by
  simp only [substituteURN, apszURNNames, List.foldl_cons, List.foldl_nil]
  rw [if_pos (show "DE_DHDN_3GK2_*".toList.getLast? = some '*' by decide),
      if_pos (show "DE_DHDN_3GK3_*".toList.getLast? = some '*' by decide),
      if_neg (show ¬"ETRS89_UTM32".toList.getLast? = some '*' by decide),
      if_neg (show ¬"ETRS89_UTM33".toList.getLast? = some '*' by decide),
      show "DE_DHDN_3GK2_*".toList.length - 1 = 13 by decide,
      show "DE_DHDN_3GK3_*".toList.length - 1 = 13 by decide]

/-- C6: for a class whose SRS name contains a colon, the substring after
the last colon is the lookup handle; the SRS name is replaced by the
table's mapped code on a case-insensitive exact match, or on a
length-minus-one match against a table entry ending in `*`, and is kept
unchanged when no entry matches; a spatial-reference object is then
built from the resulting string, and when that construction fails the
translation still succeeds, producing the layer with a null SRS. -/
theorem translateNASSchema_srs (ctor : String → Bool) (poClass : GMLFeatureClass)
    (s hdl : String) (h1 : poClass.srsName = some s)
    (h2 : afterLastColon s = some hdl) :
    (translateNASSchema ctor poClass).layerSRS =
        (if ctor (substituteURN hdl s) then some (substituteURN hdl s) else none)
    ∧ (ctor (substituteURN hdl s) = false →
        (translateNASSchema ctor poClass).layerSRS = none)
    ∧ (translateNASSchema ctor poClass).layerName = poClass.className
    ∧ (∀ h s0, ciEq "ETRS89_UTM32" h = true → substituteURN h s0 = "EPSG:25832")
    ∧ (∀ h s0, ciEqN "DE_DHDN_3GK2_*" h 13 = true →
        substituteURN h s0 = "EPSG:31466")
    ∧ (∀ h s0, ciEqN "DE_DHDN_3GK2_*" h 13 = false →
        ciEqN "DE_DHDN_3GK3_*" h 13 = false →
        ciEq "ETRS89_UTM32" h = false → ciEq "ETRS89_UTM33" h = false →
        substituteURN h s0 = s0) := by
  refine ⟨?_, ?_, ?_, ?_, ?_, ?_⟩
  · simp [translateNASSchema, h1, h2]
  · intro hf
    simp [translateNASSchema, h1, h2, hf]
  · simp [translateNASSchema]
  · intro h s0 hm
    have hml : "ETRS89_UTM32".toList.map lowerChar = h.toList.map lowerChar :=
      (ciEq_iff _ _).mp hm
    have c4 : ciEq "ETRS89_UTM33" h = false := by
      apply Bool.eq_false_iff.mpr
      intro he
      have hx := (ciEq_iff _ _).mp he
      rw [← hml] at hx
      exact absurd hx (by decide)
    rw [substituteURN_eval, if_neg (by simp [c4]), if_pos (by simp [hm])]
  · intro h s0 hm
    have hml := (ciEqN_iff "DE_DHDN_3GK2_*" h 13).mp hm
    have hlen : 13 ≤ h.toList.length := by
      have hlm := congrArg List.length hml
      have l1 : "DE_DHDN_3GK2_*".toList.length = 14 := by decide
      simp only [List.length_map, List.length_take, l1] at hlm
      omega
    have c4 : ciEq "ETRS89_UTM33" h = false := by
      apply Bool.eq_false_iff.mpr
      intro he
      have hl := congrArg List.length ((ciEq_iff _ _).mp he)
      have l2 : "ETRS89_UTM33".toList.length = 12 := by decide
      simp only [List.length_map, l2] at hl
      omega
    have c3 : ciEq "ETRS89_UTM32" h = false := by
      apply Bool.eq_false_iff.mpr
      intro he
      have hl := congrArg List.length ((ciEq_iff _ _).mp he)
      have l2 : "ETRS89_UTM32".toList.length = 12 := by decide
      simp only [List.length_map, l2] at hl
      omega
    have c2 : ciEqN "DE_DHDN_3GK3_*" h 13 = false := by
      apply Bool.eq_false_iff.mpr
      intro he
      have hx := (ciEqN_iff _ _ _).mp he
      rw [← hml] at hx
      exact absurd hx (by decide)
    rw [substituteURN_eval, if_neg (by simp [c4]), if_neg (by simp [c3]),
        if_neg (by simp [c2]), if_pos (by simp [hm])]
  · intro h s0 e1 e2 e3 e4
    rw [substituteURN_eval, if_neg (by simp [e4]), if_neg (by simp [e3]),
        if_neg (by simp [e2]), if_neg (by simp [e1])]

/-- Witness for C6: an SRS name ending in a DHDN 3-degree Gauss-Kruger
zone-2 handle resolves through the wildcard table entry to EPSG:31466;
and with a failing spatial-reference constructor the layer still comes
out, with a null SRS. -/
theorem translateNASSchema_srs_witness :
    (translateNASSchema (fun _ => false)
        ⟨"c", [], 5, some "urn:adv:crs:DE_DHDN_3GK2_NW177", []⟩).layerSRS = none
    ∧ substituteURN "DE_DHDN_3GK2_NW177" "urn:adv:crs:DE_DHDN_3GK2_NW177" =
        "EPSG:31466" := by
  have h := translateNASSchema_srs (fun _ => false)
      ⟨"c", [], 5, some "urn:adv:crs:DE_DHDN_3GK2_NW177", []⟩
      "urn:adv:crs:DE_DHDN_3GK2_NW177" "DE_DHDN_3GK2_NW177" rfl (by decide)
  exact ⟨h.2.1 rfl,
    h.2.2.2.2.1 "DE_DHDN_3GK2_NW177" "urn:adv:crs:DE_DHDN_3GK2_NW177" (by decide)⟩

/-! ## Theorems: layer assembly (`Open` tail, `GetLayer`) -/

/-- C9: after layer assembly the list has exactly (translated class
count) + 1 entries; the relation layer is appended last, except that a
trailing translated layer named `"Delete"` (case-insensitive) stays
last, with the relation layer second-to-last; and `GetLayer` yields NULL
exactly for indices outside `[0, nLayers)`. -/
theorem openLayerAssembly_spec (ctor : String → Bool)
    (classes : List GMLFeatureClass) :
    (openLayerAssembly ctor classes).length = classes.length + 1
    ∧ (∀ lastL,
        (classes.map (fun c => NASDSLayer.classLayer
          (translateNASSchema ctor c))).getLast? = some lastL →
        ciEq (nasLayerName lastL) "Delete" = true →
        openLayerAssembly ctor classes =
          (classes.map (fun c => NASDSLayer.classLayer
            (translateNASSchema ctor c))).dropLast
            ++ [NASDSLayer.relationLayer, lastL])
    ∧ (∀ lastL,
        (classes.map (fun c => NASDSLayer.classLayer
          (translateNASSchema ctor c))).getLast? = some lastL →
        ciEq (nasLayerName lastL) "Delete" = false →
        openLayerAssembly ctor classes =
          classes.map (fun c => NASDSLayer.classLayer
            (translateNASSchema ctor c)) ++ [NASDSLayer.relationLayer])
    ∧ (classes = [] →
        openLayerAssembly ctor classes = [NASDSLayer.relationLayer])
    ∧ (∀ i : Int,
        getLayer (openLayerAssembly ctor classes) i = none ↔
          (i < 0 ∨ ((openLayerAssembly ctor classes).length : Int) ≤ i)) := by
  refine ⟨?_, ?_, ?_, ?_, ?_⟩
  · simp only [openLayerAssembly]
    cases hL : (classes.map (fun c => NASDSLayer.classLayer
        (translateNASSchema ctor c))).getLast? with
    | none => simp
    | some lastL =>
        have hne : classes ≠ [] := by
          intro hnil
          rw [hnil] at hL
          simp at hL
        have hpos : 0 < classes.length := List.length_pos.mpr hne
        by_cases hdel : ciEq (nasLayerName lastL) "Delete" = true
        · simp [hdel]
          omega
        · simp [hdel]
  · intro lastL hL hdel
    simp only [openLayerAssembly]
    rw [hL]
    simp [hdel]
  · intro lastL hL hdel
    simp only [openLayerAssembly]
    rw [hL]
    simp [hdel]
  · intro hnil
    subst hnil
    rfl
  · intro i
    unfold getLayer
    split_ifs with hcond
    · simp only [eq_self_iff_true, true_iff]
      omega
    · push_neg at hcond
      have h1 : i.toNat < (openLayerAssembly ctor classes).length := by omega
      simp only [List.getElem?_eq_none_iff]
      omega

/-- Witness for C9: one translated class named "Delete" — the relation
layer lands second-to-last, the Delete layer stays last, the count is
2, and index 2 yields NULL. -/
theorem openLayerAssembly_spec_witness :
    openLayerAssembly (fun _ => true) [⟨"Delete", [], 0, none, []⟩] =
      [NASDSLayer.relationLayer,
       NASDSLayer.classLayer
         (translateNASSchema (fun _ => true) ⟨"Delete", [], 0, none, []⟩)]
    ∧ getLayer (openLayerAssembly (fun _ => true)
        [⟨"Delete", [], 0, none, []⟩]) 2 = none := by
  have h := openLayerAssembly_spec (fun _ => true) [⟨"Delete", [], 0, none, []⟩]
  constructor
  · have h2 := h.2.1 (NASDSLayer.classLayer
      (translateNASSchema (fun _ => true) ⟨"Delete", [], 0, none, []⟩))
      (by simp) (by decide)
    simpa using h2
  · exact (h.2.2.2.2 2).mpr (by
      right
      rw [h.1]
      norm_num)

end GDAL
